import Mathlib

/-!
Verification of the RevOpsKPI sales-dashboard core (RevOpsKPI.py).

The embedding models the four logic components of the repository:
the synthetic data generator, the data-quality checker, the KPI
calculator and the forecaster.  Python floats are modelled as
rationals, Python dicts as association lists, and the pseudo-random
source as explicit function parameters (one draw per record index),
so every statement is universally quantified over the random draws.

pandas semantics used by `calculate`: a DataFrame built from a list
of records has the record fields as columns when the list is
nonempty, and *no columns at all* when the list is empty, in which
case column selection `df[col]` raises `KeyError`.  This fallibility
is modelled with `Except String`.
-/

/-- A lead record, as produced by `SyntheticDataGenerator.generate_leads`. -/
structure Lead where
  id : String
  name : String
  source : String
  date : String
  status : String
deriving DecidableEq

/-- An opportunity record, as produced by `generate_opportunities`. -/
structure Opportunity where
  id : String
  lead_id : String
  amount : ℚ
  product : String
  stage : String
  owner : String
  created_date : String
  close_date : String
deriving DecidableEq

/-- A closed-deal record, as produced by `generate_closed_deals`. -/
structure ClosedDeal where
  id : String
  opportunity_id : String
  amount : ℚ
  close_date : String
  status : String
deriving DecidableEq

/-- The three collections handed around by the orchestrator
(`data` dict built in `DataCollectorAgent.collect_data`). -/
structure SalesData where
  leads : List Lead
  opportunities : List Opportunity
  closed_deals : List ClosedDeal
deriving DecidableEq

/-- Models `random.choice(pool)`: an arbitrary draw `k` selects the
element at index `k mod pool.length`.  Every element is reachable and
the result is always an element of a nonempty pool. -/
def chooseFrom (pool : List String) (k : Nat) : String :=
  pool.getD (k % pool.length) ""

/-- The per-record random draws consumed by `generate_leads`:
`nameDraw` models `fake.company()`, `sourceDraw`/`statusDraw` model the
`random.choice` index, `dateDraw` models the formatted date string
(`now - random.randint(0,30) days`), which no claim inspects. -/
structure LeadRand where
  nameDraw : Nat → String
  sourceDraw : Nat → Nat
  dateDraw : Nat → String
  statusDraw : Nat → Nat

/-- The per-record random draws consumed by `generate_opportunities`. -/
structure OppRand where
  leadRefDraw : Nat → Nat
  amountDraw : Nat → ℚ
  productDraw : Nat → Nat
  stageDraw : Nat → Nat
  ownerDraw : Nat → Nat
  createdDraw : Nat → String
  closeDraw : Nat → String

/-- The per-record random draws consumed by `generate_closed_deals`;
`statusDraw` models the weighted `random.choices` pick. -/
structure DealRand where
  oppRefDraw : Nat → Nat
  amountDraw : Nat → ℚ
  closeDraw : Nat → String
  statusDraw : Nat → Nat

/-- The fixed product list of `SyntheticDataGenerator.__init__`. -/
def products : List String := ["Product A", "Product B", "Product C"]

/-- The fixed pipeline-stage list of `SyntheticDataGenerator.__init__`. -/
def stages : List String :=
  ["Prospecting", "Qualification", "Demo", "Proposal", "Negotiation", "Closed Won", "Closed Lost"]

/-- `SyntheticDataGenerator.generate_leads`. -/
def generate_leads (count : Nat) (g : LeadRand) : List Lead :=
  (List.range count).map fun i =>
    { id := "L" ++ toString (1000 + i)
      name := g.nameDraw i
      source := chooseFrom ["Web", "Referral", "Event", "Cold Call"] (g.sourceDraw i)
      date := g.dateDraw i
      status := chooseFrom ["New", "Contacted", "Qualified", "Disqualified"] (g.statusDraw i) }

/-- `SyntheticDataGenerator.generate_opportunities`; `random.randint(0, 99)`
is modelled as `draw mod 100`. -/
def generate_opportunities (count : Nat) (g : OppRand) : List Opportunity :=
  (List.range count).map fun i =>
    { id := "O" ++ toString (2000 + i)
      lead_id := "L" ++ toString (1000 + g.leadRefDraw i % 100)
      amount := g.amountDraw i
      product := chooseFrom products (g.productDraw i)
      stage := chooseFrom stages (g.stageDraw i)
      owner := "Sales-" ++ toString (1 + g.ownerDraw i % 5)
      created_date := g.createdDraw i
      close_date := g.closeDraw i }

/-- `SyntheticDataGenerator.generate_closed_deals`. -/
def generate_closed_deals (count : Nat) (g : DealRand) : List ClosedDeal :=
  (List.range count).map fun i =>
    { id := "D" ++ toString (3000 + i)
      opportunity_id := "O" ++ toString (2000 + g.oppRefDraw i % 50)
      amount := g.amountDraw i
      close_date := g.closeDraw i
      status := chooseFrom ["Closed Won", "Closed Lost"] (g.statusDraw i) }

/-!  Data-quality checker (`DataQualityAgent.check_completeness`).
The checker is generic over Python dicts, so a record is modelled as
an association list of field name to nullable value (`none` models
Python `None`; only null-ness and the text of the id field matter to
this component). -/

/-- A generic record as seen by the quality checker. -/
def QRecord : Type := List (String × Option String)

/-- Models `any(v is None for v in record.values())`. -/
def hasMissing (r : QRecord) : Bool :=
  r.any fun f => f.2.isNone

/-- Models the f-string rendering of `record.get('id')`: an absent
key or a null value both render as the text "None". -/
def idLabel (r : QRecord) : String :=
  match r.lookup "id" with
  | some (some s) => s
  | some none => "None"
  | none => "None"

/-- The issue string appended for a record with a missing value. -/
def issueMsg (datasetName : String) (r : QRecord) : String :=
  "Missing data in " ++ datasetName ++ " record " ++ idLabel r

/-- `DataQualityAgent.check_completeness`: the nested loop over
`data.items()` and the records, appending one issue per record that
has at least one null value. -/
def check_completeness (data : List (String × List QRecord)) : List String :=
  data.foldl
    (fun issues nr =>
      nr.2.foldl (fun acc r => if hasMissing r then acc ++ [issueMsg nr.1 r] else acc) issues)
    []

/-!  KPI calculator (`KPICalculationAgent.calculate`). -/

/-- The draws of the placeholder random metrics in `calculate`:
each field models one `random.uniform` call, and `stageConvDraw`
models the per-stage draw of the `stage_conversion` comprehension. -/
structure RandDraws where
  sales_cycle_days : ℚ
  quota_attainment : ℚ
  forecast_accuracy : ℚ
  stageConvDraw : String → ℚ
  cost_per_lead : ℚ
  mql_to_sql : ℚ
  website_conversion : ℚ
  cac : ℚ

/-- The value returned by `calculate`: the dict literal of lines
84-100, one field per key.  `stage_conversion` is the nested dict. -/
structure KPIs where
  monthly_revenue : ℚ
  average_deal_size : ℚ
  win_rate : ℚ
  sales_cycle_days : ℚ
  quota_attainment : ℚ
  pipeline_value : ℚ
  pipeline_velocity : ℚ
  forecast_accuracy : ℚ
  stage_conversion : List (String × ℚ)
  coverage_ratio : ℚ
  lead_conversion_rate : ℚ
  cost_per_lead : ℚ
  mql_to_sql : ℚ
  website_conversion : ℚ
  cac : ℚ
deriving DecidableEq

/-- `KPICalculationAgent.calculate`.  The three `if ... isEmpty`
guards model the pandas column selections `df_deals["status"]`
(line 78), `df_opps["stage"]` (line 81) and `df_leads["status"]`
(line 82): a DataFrame built from an empty record list has no
columns, so the selection raises `KeyError` there; on a nonempty
list the column exists and the boolean-mask row selections are row
filters.  A frame filtered from a nonempty frame keeps its columns,
so the later `won_deals["amount"]` and `open_opps["amount"]`
selections never fail.  `mean()` on the guarded nonempty subset is
sum divided by count. -/
def calculate (data : SalesData) (r : RandDraws) : Except String KPIs :=
  if data.closed_deals.isEmpty then Except.error "KeyError: status" else
  let won_deals := data.closed_deals.filter fun d => d.status == "Closed Won"
  let lost_deals := data.closed_deals.filter fun d => d.status == "Closed Lost"
  let total_deals := won_deals.length + lost_deals.length
  if data.opportunities.isEmpty then Except.error "KeyError: stage" else
  let open_opps := data.opportunities.filter fun o =>
    !(o.stage == "Closed Won" || o.stage == "Closed Lost")
  if data.leads.isEmpty then Except.error "KeyError: status" else
  let qualified_leads := data.leads.filter fun l => l.status == "Qualified"
  Except.ok
    { monthly_revenue := (won_deals.map (fun d => d.amount)).sum
      average_deal_size :=
        if !won_deals.isEmpty then
          (won_deals.map (fun d => d.amount)).sum / (won_deals.length : ℚ)
        else 0
      win_rate :=
        if total_deals > 0 then (won_deals.length : ℚ) / (total_deals : ℚ) * 100 else 0
      sales_cycle_days := r.sales_cycle_days
      quota_attainment := r.quota_attainment
      pipeline_value := (open_opps.map (fun o => o.amount)).sum
      pipeline_velocity := (open_opps.map (fun o => o.amount)).sum * 0.7 / 30
      forecast_accuracy := r.forecast_accuracy
      stage_conversion :=
        ["Prospecting", "Qualification", "Demo"].map fun s => (s, r.stageConvDraw s)
      coverage_ratio :=
        if open_opps.length ≠ 0 then (open_opps.map (fun o => o.amount)).sum / 100000 else 0
      lead_conversion_rate :=
        if data.leads.length > 0 then
          (qualified_leads.length : ℚ) / (data.leads.length : ℚ) * 100
        else 0
      cost_per_lead := r.cost_per_lead
      mql_to_sql := r.mql_to_sql
      website_conversion := r.website_conversion
      cac := r.cac }

/-- A KPI-dict value: a number or the nested stage-conversion dict. -/
inductive KPIValue where
  | num (q : ℚ)
  | table (t : List (String × ℚ))
deriving DecidableEq

/-- The KPI mapping as the dict literal returned by `calculate`,
with its keys in source order. -/
def kpiDict (k : KPIs) : List (String × KPIValue) :=
  [("monthly_revenue", KPIValue.num k.monthly_revenue),
   ("average_deal_size", KPIValue.num k.average_deal_size),
   ("win_rate", KPIValue.num k.win_rate),
   ("sales_cycle_days", KPIValue.num k.sales_cycle_days),
   ("quota_attainment", KPIValue.num k.quota_attainment),
   ("pipeline_value", KPIValue.num k.pipeline_value),
   ("pipeline_velocity", KPIValue.num k.pipeline_velocity),
   ("forecast_accuracy", KPIValue.num k.forecast_accuracy),
   ("stage_conversion", KPIValue.table k.stage_conversion),
   ("coverage_ratio", KPIValue.num k.coverage_ratio),
   ("lead_conversion_rate", KPIValue.num k.lead_conversion_rate),
   ("cost_per_lead", KPIValue.num k.cost_per_lead),
   ("mql_to_sql", KPIValue.num k.mql_to_sql),
   ("website_conversion", KPIValue.num k.website_conversion),
   ("cac", KPIValue.num k.cac)]

/-!  Forecaster (`ForecastingAgent.forecast`). -/

/-- Models Python `int()` applied to a number: truncation toward zero. -/
def pyInt (q : ℚ) : ℤ :=
  if 0 ≤ q then ⌊q⌋ else ⌈q⌉

/-- The dict returned by `forecast`. -/
structure ForecastOut where
  next_30d_revenue : ℚ
  next_30d_leads : ℤ
deriving DecidableEq

/-- `ForecastingAgent.forecast`, over a generic KPI dict:
`kpis["monthly_revenue"]` raises `KeyError` when the key is absent,
`kpis.get("lead_conversion_rate", 0)` defaults to 0, multiplying a
nested dict by a float raises `TypeError`, and `mult` is the
`random.uniform(0.9, 1.2)` draw. -/
def forecast (kpis : List (String × KPIValue)) (mult : ℚ) : Except String ForecastOut :=
  match kpis.lookup "monthly_revenue" with
  | none => Except.error "KeyError: monthly_revenue"
  | some (KPIValue.table _) => Except.error "TypeError"
  | some (KPIValue.num mv) =>
    match (kpis.lookup "lead_conversion_rate").getD (KPIValue.num 0) with
    | KPIValue.table _ => Except.error "TypeError"
    | KPIValue.num lc =>
      Except.ok { next_30d_revenue := mv * mult, next_30d_leads := pyInt (lc * 2) }

/-!  Decimal rendering facts: the ids are f-strings embedding a
decimal numeral, so uniqueness of the ids needs injectivity of the
decimal rendering `Nat.repr`.  We prove it by a parse round trip. -/

/-- The numeric value of a decimal digit character. -/
def digitVal (c : Char) : Nat := c.toNat - 48

theorem digitVal_digitChar {d : Nat} (h : d < 10) :
    digitVal (Nat.digitChar d) = d := by
  interval_cases d <;> rfl

/-- Parse a most-significant-first list of decimal digit characters. -/
def parseDigits (l : List Char) : Nat :=
  l.foldl (fun a c => a * 10 + digitVal c) 0

theorem toDigitsCore_fuel : ∀ (f1 f2 n : Nat) (ds : List Char), n < f1 → n < f2 →
    Nat.toDigitsCore 10 f1 n ds = Nat.toDigitsCore 10 f2 n ds := by
  intro f1
  induction f1 with
  | zero => intro f2 n ds h1 _; exact absurd h1 (Nat.not_lt_zero n)
  | succ f1 ih =>
    intro f2 n ds h1 h2
    cases f2 with
    | zero => exact absurd h2 (Nat.not_lt_zero n)
    | succ f2 =>
      simp only [Nat.toDigitsCore]
      by_cases h : n / 10 = 0
      · simp [h]
      · simp only [h, if_false]
        exact ih f2 (n / 10) _ (by omega) (by omega)

theorem toDigitsCore_append : ∀ (fuel n : Nat) (ds : List Char), n < fuel →
    Nat.toDigitsCore 10 fuel n ds = Nat.toDigitsCore 10 fuel n [] ++ ds := by
  intro fuel
  induction fuel with
  | zero => intro n ds h; exact absurd h (Nat.not_lt_zero n)
  | succ fuel ih =>
    intro n ds h
    simp only [Nat.toDigitsCore]
    by_cases h0 : n / 10 = 0
    · simp [h0]
    · simp only [h0, if_false]
      rw [ih (n / 10) (Nat.digitChar (n % 10) :: ds) (by omega),
        ih (n / 10) [Nat.digitChar (n % 10)] (by omega)]
      simp

theorem toDigits_small {n : Nat} (h : n < 10) :
    Nat.toDigits 10 n = [Nat.digitChar n] := by
  have h0 : n / 10 = 0 := Nat.div_eq_of_lt h
  simp [Nat.toDigits, Nat.toDigitsCore, h0, Nat.mod_eq_of_lt h]

theorem toDigits_large {n : Nat} (h : 10 ≤ n) :
    Nat.toDigits 10 n = Nat.toDigits 10 (n / 10) ++ [Nat.digitChar (n % 10)] := by
  have h0 : ¬(n / 10 = 0) := by omega
  simp only [Nat.toDigits, Nat.toDigitsCore, h0, if_false]
  rw [toDigitsCore_append n (n / 10) [Nat.digitChar (n % 10)] (by omega)]
  rw [toDigitsCore_fuel n (n / 10 + 1) (n / 10) [] (by omega) (by omega)]
  simp only [Nat.toDigitsCore]

theorem parseDigits_toDigits : ∀ n : Nat, parseDigits (Nat.toDigits 10 n) = n := by
  intro n
  induction n using Nat.strong_induction_on with
  | _ n ih =>
    by_cases h : n < 10
    · rw [toDigits_small h]
      show 0 * 10 + digitVal (Nat.digitChar n) = n
      rw [digitVal_digitChar h]
      omega
    · rw [toDigits_large (by omega)]
      show List.foldl (fun a c => a * 10 + digitVal c) 0
        (Nat.toDigits 10 (n / 10) ++ [Nat.digitChar (n % 10)]) = n
      rw [List.foldl_append]
      show parseDigits (Nat.toDigits 10 (n / 10)) * 10 + digitVal (Nat.digitChar (n % 10)) = n
      rw [ih (n / 10) (by omega), digitVal_digitChar (by omega)]
      omega

theorem repr_injective : Function.Injective Nat.repr := by
  intro m n h
  have h2 : Nat.toDigits 10 m = Nat.toDigits 10 n := congrArg String.data h
  have h3 := congrArg parseDigits h2
  rwa [parseDigits_toDigits, parseDigits_toDigits] at h3

theorem prefixed_repr_injective (p : String) {m n : Nat}
    (h : p ++ Nat.repr m = p ++ Nat.repr n) : m = n := by
  have hd := congrArg String.data h
  simp only [String.data_append] at hd
  have h2 : Nat.toDigits 10 m = Nat.toDigits 10 n := List.append_cancel_left hd
  have h3 := congrArg parseDigits h2
  rwa [parseDigits_toDigits, parseDigits_toDigits] at h3

theorem toString_nat_eq_repr (n : Nat) : toString n = Nat.repr n := rfl

theorem chooseFrom_mem {pool : List String} (h : pool ≠ []) (k : Nat) :
    chooseFrom pool k ∈ pool := by
  have hl : k % pool.length < pool.length :=
    Nat.mod_lt _ (List.length_pos.mpr h)
  simp only [chooseFrom, List.getD_eq_getElem?_getD, List.getElem?_eq_getElem hl,
    Option.getD_some]
  exact List.getElem_mem hl

theorem inner_fold_eq (nm : String) : ∀ (rs : List QRecord) (acc : List String),
    rs.foldl (fun acc r => if hasMissing r then acc ++ [issueMsg nm r] else acc) acc
      = acc ++ (rs.filter hasMissing).map (issueMsg nm) := by
  intro rs
  induction rs with
  | nil => intro acc; simp
  | cons r rs ih =>
    intro acc
    by_cases h : hasMissing r
    · simp [List.foldl_cons, h, ih, List.filter_cons]
    · simp [List.foldl_cons, h, ih, List.filter_cons]

theorem check_fold_eq : ∀ (data : List (String × List QRecord)) (acc : List String),
    data.foldl
      (fun issues nr =>
        nr.2.foldl (fun a r => if hasMissing r then a ++ [issueMsg nr.1 r] else a) issues)
      acc
      = acc ++ (data.map fun nr => (nr.2.filter hasMissing).map (issueMsg nr.1)).flatten := by
  intro data
  induction data with
  | nil => intro acc; simp
  | cons nr data ih =>
    intro acc
    simp only [List.foldl_cons]
    rw [inner_fold_eq nr.1 nr.2 acc, ih]
    simp [List.append_assoc]

/-!  Claim-side aggregation subsets, named after the spec wording. -/

/-- The closed deals with status "Closed Won". -/
def wonDeals (ds : List ClosedDeal) : List ClosedDeal :=
  ds.filter fun d => d.status == "Closed Won"

/-- The closed deals with status "Closed Lost". -/
def lostDeals (ds : List ClosedDeal) : List ClosedDeal :=
  ds.filter fun d => d.status == "Closed Lost"

/-- The opportunities whose stage is neither "Closed Won" nor "Closed Lost". -/
def openOpps (os : List Opportunity) : List Opportunity :=
  os.filter fun o => !(o.stage == "Closed Won" || o.stage == "Closed Lost")

/-- The leads with status "Qualified". -/
def qualifiedLeads (ls : List Lead) : List Lead :=
  ls.filter fun l => l.status == "Qualified"

/-- Everything `calculate` guarantees about a successfully returned KPI
record, phrased through the claim-side subset definitions. -/
theorem calculate_spec {data : SalesData} {r : RandDraws} {k : KPIs}
    (h : calculate data r = Except.ok k) :
    data.closed_deals ≠ [] ∧ data.opportunities ≠ [] ∧ data.leads ≠ [] ∧
    k.monthly_revenue = ((wonDeals data.closed_deals).map fun d => d.amount).sum ∧
    (k.average_deal_size =
      if !(wonDeals data.closed_deals).isEmpty then
        ((wonDeals data.closed_deals).map fun d => d.amount).sum
          / ((wonDeals data.closed_deals).length : ℚ)
      else 0) ∧
    (k.win_rate =
      if (wonDeals data.closed_deals).length + (lostDeals data.closed_deals).length > 0 then
        ((wonDeals data.closed_deals).length : ℚ)
          / (((wonDeals data.closed_deals).length + (lostDeals data.closed_deals).length : Nat) : ℚ)
          * 100
      else 0) ∧
    k.pipeline_value = ((openOpps data.opportunities).map fun o => o.amount).sum ∧
    k.pipeline_velocity = ((openOpps data.opportunities).map fun o => o.amount).sum * 0.7 / 30 ∧
    (k.coverage_ratio =
      if (openOpps data.opportunities).length ≠ 0 then
        ((openOpps data.opportunities).map fun o => o.amount).sum / 100000
      else 0) ∧
    (k.lead_conversion_rate =
      if data.leads.length > 0 then
        ((qualifiedLeads data.leads).length : ℚ) / (data.leads.length : ℚ) * 100
      else 0) ∧
    k.stage_conversion = (["Prospecting", "Qualification", "Demo"].map fun s => (s, r.stageConvDraw s)) := by
  simp only [calculate] at h
  split at h
  · exact Except.noConfusion h
  · split at h
    · exact Except.noConfusion h
    · split at h
      · exact Except.noConfusion h
      · rename_i hd ho hl
        cases h
        refine ⟨by simpa [List.isEmpty_iff] using hd, by simpa [List.isEmpty_iff] using ho,
          by simpa [List.isEmpty_iff] using hl, rfl, rfl, rfl, rfl, rfl, rfl, rfl, rfl⟩

/-!  Concrete sample inputs used for failing evaluations and witnesses. -/

/-- A concrete lead record. -/
def sampleLead : Lead :=
  { id := "L1000", name := "Acme", source := "Web", date := "2025-09-20", status := "Qualified" }

/-- A concrete unqualified lead record. -/
def sampleLead2 : Lead :=
  { id := "L1001", name := "Globex", source := "Referral", date := "2025-09-25", status := "New" }

/-- A concrete opportunity record with the given stage and amount. -/
def sampleOpp (stg : String) (amt : ℚ) : Opportunity :=
  { id := "O2000", lead_id := "L1000", amount := amt, product := "Product A", stage := stg,
    owner := "Sales-1", created_date := "2025-08-01", close_date := "2025-11-01" }

/-- A concrete closed-deal record with the given status and amount. -/
def sampleDeal (st : String) (amt : ℚ) : ClosedDeal :=
  { id := "D3000", opportunity_id := "O2000", amount := amt, close_date := "2025-09-15",
    status := st }

/-- A concrete assignment of the placeholder random draws. -/
def sampleRnd : RandDraws :=
  { sales_cycle_days := 20, quota_attainment := 100, forecast_accuracy := 90,
    stageConvDraw := fun _ => 1 / 2, cost_per_lead := 100, mql_to_sql := 30,
    website_conversion := 2, cac := 1000 }

/-- A default KPI record used only to extract the payload of a
successful `calculate` run in witness statements. -/
def kpiDefault : KPIs :=
  { monthly_revenue := 0, average_deal_size := 0, win_rate := 0, sales_cycle_days := 0,
    quota_attainment := 0, pipeline_value := 0, pipeline_velocity := 0, forecast_accuracy := 0,
    stage_conversion := [], coverage_ratio := 0, lead_conversion_rate := 0, cost_per_lead := 0,
    mql_to_sql := 0, website_conversion := 0, cac := 0 }

/-- The KPI record of a successful `calculate` run (the run is always
successful where this is used, so the default is never taken). -/
def calcOk (data : SalesData) (r : RandDraws) : KPIs :=
  (calculate data r).toOption.getD kpiDefault

/-- Nonempty leads and opportunities, empty closed deals. -/
def c1EmptyDealsData : SalesData :=
  { leads := [sampleLead], opportunities := [sampleOpp "Demo" 5000], closed_deals := [] }

/-- 7 Closed Won deals of 10000 and 3 Closed Lost deals. -/
def c1WonData : SalesData :=
  { leads := [sampleLead], opportunities := [sampleOpp "Demo" 5000],
    closed_deals := List.replicate 7 (sampleDeal "Closed Won" 10000)
      ++ List.replicate 3 (sampleDeal "Closed Lost" 5000) }

/-- C1: for a successfully returned KPI mapping, win_rate is
(Closed Won count) / (Closed Won count + Closed Lost count) × 100 and 0
when that denominator is 0; but on an *empty* closed-deals collection
`calculate` does not return 0: the pandas column selection
`df_deals["status"]` raises `KeyError`, because a DataFrame built from
an empty list has no columns. -/
theorem C1_win_rate :
    calculate c1EmptyDealsData sampleRnd = Except.error "KeyError: status" ∧
    ∀ (data : SalesData) (r : RandDraws) (k : KPIs), calculate data r = Except.ok k →
      ((wonDeals data.closed_deals).length + (lostDeals data.closed_deals).length ≠ 0 →
        k.win_rate = ((wonDeals data.closed_deals).length : ℚ)
          / (((wonDeals data.closed_deals).length + (lostDeals data.closed_deals).length : Nat) : ℚ)
          * 100) ∧
      ((wonDeals data.closed_deals).length + (lostDeals data.closed_deals).length = 0 →
        k.win_rate = 0) := by
  refine ⟨rfl, fun data r k h => ?_⟩
  have hw := (calculate_spec h).2.2.2.2.2.1
  constructor
  · intro hne
    rw [hw, if_pos (Nat.pos_of_ne_zero hne)]
  · intro hz
    rw [hw, if_neg (by omega)]

/-- Witness for C1: on 7 Closed Won and 3 Closed Lost deals the
returned win_rate is 70. -/
theorem C1_win_rate_witness : (calcOk c1WonData sampleRnd).win_rate = 70 := by
  have h := (C1_win_rate.2 c1WonData sampleRnd (calcOk c1WonData sampleRnd) rfl).1 (by decide)
  have h7 : (wonDeals c1WonData.closed_deals).length = 7 := by decide
  have h3 : (lostDeals c1WonData.closed_deals).length = 3 := by decide
  rw [h, h7, h3]
  norm_num

/-- Two leads, one opportunity, empty closed deals. -/
def c2EmptyDealsData : SalesData :=
  { leads := [sampleLead, sampleLead2], opportunities := [sampleOpp "Demo" 2500],
    closed_deals := [] }

/-- Closed Won deals of 4000 and 6000 plus a Closed Lost deal. -/
def c2WonData : SalesData :=
  { leads := [sampleLead], opportunities := [sampleOpp "Demo" 5000],
    closed_deals := [sampleDeal "Closed Won" 4000, sampleDeal "Closed Won" 6000,
      sampleDeal "Closed Lost" 3000] }

/-- C2 counterexample: on an empty closed-deals collection `calculate`
does not return any KPI mapping at all (so average_deal_size is not 0
there): the pandas column selection raises `KeyError` first. -/
theorem C2_counterexample :
    calculate c2EmptyDealsData sampleRnd = Except.error "KeyError: status" := rfl

/-- C2 (amended to inputs on which the calculator returns):
monthly_revenue is the sum of amount over Closed Won deals, and
average_deal_size is the mean of that subset, 0 when it is empty. -/
theorem C2_revenue_and_deal_size :
    ∀ (data : SalesData) (r : RandDraws) (k : KPIs), calculate data r = Except.ok k →
      k.monthly_revenue = ((wonDeals data.closed_deals).map fun d => d.amount).sum ∧
      (wonDeals data.closed_deals ≠ [] →
        k.average_deal_size = ((wonDeals data.closed_deals).map fun d => d.amount).sum
          / ((wonDeals data.closed_deals).length : ℚ)) ∧
      (wonDeals data.closed_deals = [] → k.average_deal_size = 0) := by
  intro data r k h
  obtain ⟨-, -, -, hmr, hads, -⟩ := calculate_spec h
  refine ⟨hmr, ?_, ?_⟩
  · intro hne
    rw [hads, if_pos (by simpa [List.isEmpty_iff] using hne)]
  · intro he
    rw [hads, if_neg (by simp [he])]

/-- Witness for C2: Closed Won amounts 4000 and 6000 give
monthly_revenue 10000 and average_deal_size 5000. -/
theorem C2_witness :
    (calcOk c2WonData sampleRnd).monthly_revenue = 10000 ∧
    (calcOk c2WonData sampleRnd).average_deal_size = 5000 := by
  have h := C2_revenue_and_deal_size c2WonData sampleRnd (calcOk c2WonData sampleRnd) rfl
  have hw : wonDeals c2WonData.closed_deals
      = [sampleDeal "Closed Won" 4000, sampleDeal "Closed Won" 6000] := rfl
  constructor
  · rw [h.1, hw]
    norm_num [sampleDeal]
  · rw [h.2.1 (by decide), hw]
    norm_num [sampleDeal]

/-- Empty leads, nonempty opportunities and closed deals. -/
def c3EmptyLeadsData : SalesData :=
  { leads := [], opportunities := [sampleOpp "Demo" 5000],
    closed_deals := [sampleDeal "Closed Won" 8000] }

/-- Two leads of which one is Qualified. -/
def c3LeadsData : SalesData :=
  { leads := [sampleLead, sampleLead2], opportunities := [sampleOpp "Demo" 5000],
    closed_deals := [sampleDeal "Closed Won" 8000] }

/-- C3: whenever `calculate` returns, lead_conversion_rate is
(Qualified count) / (total lead count) × 100; but on an *empty* lead
collection the calculation does fault: `df_leads["status"]` raises
`KeyError` (empty DataFrame has no columns), so the `else 0` guard of
line 95 is never reached. -/
theorem C3_lead_conversion :
    calculate c3EmptyLeadsData sampleRnd = Except.error "KeyError: status" ∧
    ∀ (data : SalesData) (r : RandDraws) (k : KPIs), calculate data r = Except.ok k →
      k.lead_conversion_rate
        = ((qualifiedLeads data.leads).length : ℚ) / (data.leads.length : ℚ) * 100 := by
  refine ⟨rfl, fun data r k h => ?_⟩
  obtain ⟨-, -, hl, -, -, -, -, -, -, hlcr, -⟩ := calculate_spec h
  rw [hlcr, if_pos (List.length_pos.mpr hl)]

/-- Witness for C3: one Qualified lead out of two gives rate 50. -/
theorem C3_lead_conversion_witness :
    (calcOk c3LeadsData sampleRnd).lead_conversion_rate = 50 := by
  have h := C3_lead_conversion.2 c3LeadsData sampleRnd (calcOk c3LeadsData sampleRnd) rfl
  have hq : (qualifiedLeads c3LeadsData.leads).length = 1 := by decide
  have hn : c3LeadsData.leads.length = 2 := by decide
  rw [h, hq, hn]
  norm_num

/-- Nonempty leads and closed deals, empty opportunities. -/
def c4EmptyOppsData : SalesData :=
  { leads := [sampleLead], opportunities := [],
    closed_deals := [sampleDeal "Closed Won" 8000] }

/-- Two open opportunities (1000 and 4000) and one Closed Won one. -/
def c4OppsData : SalesData :=
  { leads := [sampleLead],
    opportunities := [sampleOpp "Demo" 1000, sampleOpp "Prospecting" 4000,
      sampleOpp "Closed Won" 9999],
    closed_deals := [sampleDeal "Closed Lost" 8000] }

/-- C4 counterexample: on an empty opportunities collection `calculate`
returns no pipeline_value at all: `df_opps["stage"]` raises `KeyError`
(a DataFrame built from an empty list has no columns). -/
theorem C4_counterexample :
    calculate c4EmptyOppsData sampleRnd = Except.error "KeyError: stage" := rfl

/-- C4 (amended to inputs on which the calculator returns):
pipeline_value is the sum of amount over opportunities whose stage is
neither "Closed Won" nor "Closed Lost", and pipeline_velocity is
pipeline_value × 0.7 / 30. -/
theorem C4_pipeline :
    ∀ (data : SalesData) (r : RandDraws) (k : KPIs), calculate data r = Except.ok k →
      k.pipeline_value = ((openOpps data.opportunities).map fun o => o.amount).sum ∧
      k.pipeline_velocity = k.pipeline_value * 0.7 / 30 := by
  intro data r k h
  obtain ⟨-, -, -, -, -, -, hpv, hvel, -⟩ := calculate_spec h
  exact ⟨hpv, by rw [hvel, hpv]⟩

/-- Witness for C4: open amounts 1000 and 4000 give pipeline_value 5000
and pipeline_velocity 5000 × 0.7 / 30 = 350/3. -/
theorem C4_pipeline_witness :
    (calcOk c4OppsData sampleRnd).pipeline_value = 5000 ∧
    (calcOk c4OppsData sampleRnd).pipeline_velocity = 350 / 3 := by
  have h := C4_pipeline c4OppsData sampleRnd (calcOk c4OppsData sampleRnd) rfl
  have ho : openOpps c4OppsData.opportunities
      = [sampleOpp "Demo" 1000, sampleOpp "Prospecting" 4000] := rfl
  have hpv : (calcOk c4OppsData sampleRnd).pipeline_value = 5000 := by
    rw [h.1, ho]
    norm_num [sampleOpp]
  refine ⟨hpv, ?_⟩
  rw [h.2, hpv]
  norm_num

/-- Two leads and a closed deal, empty opportunities. -/
def c5EmptyOppsData : SalesData :=
  { leads := [sampleLead, sampleLead2], opportunities := [],
    closed_deals := [sampleDeal "Closed Lost" 500] }

/-- One open opportunity of 5000. -/
def c5OppsData : SalesData :=
  { leads := [sampleLead], opportunities := [sampleOpp "Negotiation" 5000],
    closed_deals := [sampleDeal "Closed Won" 8000] }

/-- C5 counterexample: an empty opportunities collection has no open
opportunities, yet `calculate` does not return coverage_ratio 0 there:
`df_opps["stage"]` raises `KeyError` first. -/
theorem C5_counterexample :
    calculate c5EmptyOppsData sampleRnd = Except.error "KeyError: stage" := rfl

/-- C5 (amended to inputs on which the calculator returns):
coverage_ratio is 0 when there are no open opportunities and
pipeline_value / 100000 otherwise. -/
theorem C5_coverage :
    ∀ (data : SalesData) (r : RandDraws) (k : KPIs), calculate data r = Except.ok k →
      (openOpps data.opportunities = [] → k.coverage_ratio = 0) ∧
      (openOpps data.opportunities ≠ [] →
        k.coverage_ratio = k.pipeline_value / 100000) := by
  intro data r k h
  obtain ⟨-, -, -, -, -, -, hpv, -, hcov, -⟩ := calculate_spec h
  constructor
  · intro he
    rw [hcov, if_neg (by simp [he])]
  · intro hne
    rw [hcov, if_pos (fun hh => hne (List.length_eq_zero.mp hh)), hpv]

/-- Witness for C5: a single open opportunity of 5000 gives
coverage_ratio 5000 / 100000 = 1/20. -/
theorem C5_coverage_witness :
    (calcOk c5OppsData sampleRnd).coverage_ratio = 1 / 20 := by
  have h := (C5_coverage c5OppsData sampleRnd (calcOk c5OppsData sampleRnd) rfl).2 (by decide)
  have hs := @calculate_spec c5OppsData sampleRnd (calcOk c5OppsData sampleRnd) rfl
  have ho : openOpps c5OppsData.opportunities = [sampleOpp "Negotiation" 5000] := rfl
  have hpv : (calcOk c5OppsData sampleRnd).pipeline_value = 5000 := by
    rw [hs.2.2.2.2.2.2.1, ho]
    norm_num [sampleOpp]
  rw [h, hpv]
  norm_num

/-- Prefixed sequential decimal ids are pairwise distinct. -/
theorem seq_ids_nodup (p : String) (base n : Nat) :
    (((List.range n).map fun i => p ++ toString (base + i))).Nodup := by
  refine List.Nodup.map ?_ (List.nodup_range n)
  intro a b hab
  dsimp only at hab
  rw [toString_nat_eq_repr, toString_nat_eq_repr] at hab
  have := prefixed_repr_injective p hab
  omega

theorem generate_leads_ids (n : Nat) (gl : LeadRand) :
    ((generate_leads n gl).map fun l => l.id)
      = ((List.range n).map fun i => "L" ++ toString (1000 + i)) := by
  simp only [generate_leads, List.map_map]
  rfl

theorem generate_opportunities_ids (n : Nat) (go : OppRand) :
    ((generate_opportunities n go).map fun o => o.id)
      = ((List.range n).map fun i => "O" ++ toString (2000 + i)) := by
  simp only [generate_opportunities, List.map_map]
  rfl

theorem generate_closed_deals_ids (n : Nat) (gd : DealRand) :
    ((generate_closed_deals n gd).map fun d => d.id)
      = ((List.range n).map fun i => "D" ++ toString (3000 + i)) := by
  simp only [generate_closed_deals, List.map_map]
  rfl

/-- C6: for every requested count and every random source, each
generator returns exactly that many records, their ids are the
sequential strings "L"/"O"/"D" followed by 1000+i / 2000+i / 3000+i,
those ids are pairwise distinct, and count 0 yields the empty list. -/
theorem C6_generators :
    ∀ (n : Nat) (gl : LeadRand) (go : OppRand) (gd : DealRand),
      (generate_leads n gl).length = n ∧
      (generate_opportunities n go).length = n ∧
      (generate_closed_deals n gd).length = n ∧
      ((generate_leads n gl).map fun l => l.id)
        = ((List.range n).map fun i => "L" ++ toString (1000 + i)) ∧
      ((generate_opportunities n go).map fun o => o.id)
        = ((List.range n).map fun i => "O" ++ toString (2000 + i)) ∧
      ((generate_closed_deals n gd).map fun d => d.id)
        = ((List.range n).map fun i => "D" ++ toString (3000 + i)) ∧
      ((generate_leads n gl).map fun l => l.id).Nodup ∧
      ((generate_opportunities n go).map fun o => o.id).Nodup ∧
      ((generate_closed_deals n gd).map fun d => d.id).Nodup ∧
      generate_leads 0 gl = [] ∧ generate_opportunities 0 go = [] ∧
      generate_closed_deals 0 gd = [] := by
  intro n gl go gd
  refine ⟨by simp [generate_leads], by simp [generate_opportunities],
    by simp [generate_closed_deals], generate_leads_ids n gl,
    generate_opportunities_ids n go, generate_closed_deals_ids n gd, ?_, ?_, ?_, rfl, rfl, rfl⟩
  · rw [generate_leads_ids]
    exact seq_ids_nodup "L" 1000 n
  · rw [generate_opportunities_ids]
    exact seq_ids_nodup "O" 2000 n
  · rw [generate_closed_deals_ids]
    exact seq_ids_nodup "D" 3000 n

/-- C7: the quality checker returns exactly one issue string per
record containing a null field and none for the others, in collection
order and generation order, and a single record with one null field
yields exactly its one issue string. -/
theorem C7_quality_checker :
    (∀ data : List (String × List QRecord),
      check_completeness data
        = (data.map fun nr => (nr.2.filter hasMissing).map (issueMsg nr.1)).flatten) ∧
    (∀ ls os ds : List QRecord,
      check_completeness [("leads", ls), ("opportunities", os), ("closed_deals", ds)]
        = (ls.filter hasMissing).map (issueMsg "leads")
            ++ ((os.filter hasMissing).map (issueMsg "opportunities")
            ++ (ds.filter hasMissing).map (issueMsg "closed_deals"))) ∧
    (∀ (nm : String) (r : QRecord), hasMissing r = true →
      check_completeness [(nm, [r])] = [issueMsg nm r]) := by
  have hmain : ∀ data : List (String × List QRecord),
      check_completeness data
        = (data.map fun nr => (nr.2.filter hasMissing).map (issueMsg nr.1)).flatten := by
    intro data
    have h := check_fold_eq data []
    simpa [check_completeness] using h
  refine ⟨hmain, ?_, ?_⟩
  · intro ls os ds
    rw [hmain]
    simp
  · intro nm r hr
    rw [hmain]
    simp [List.filter_cons, hr]

/-- A record whose name field is an explicit null. -/
def nullRecord : QRecord := [("id", some "L9"), ("name", none)]

/-- Witness for C7: the single-null record produces exactly one issue
string that references its id. -/
theorem C7_witness :
    check_completeness [("leads", [nullRecord])]
      = ["Missing data in leads record L9"] := by
  have h := C7_quality_checker.2.2 "leads" nullRecord (by decide)
  rw [h]
  rfl

/-- C8: given a KPI mapping with numeric monthly_revenue and
lead_conversion_rate entries and any multiplier in [0.9, 1.2], the
forecaster returns next_30d_revenue = monthly_revenue × multiplier and
next_30d_leads = the integer truncation of lead_conversion_rate × 2,
with no error. -/
theorem C8_forecast :
    ∀ (kpis : List (String × KPIValue)) (mult mv lc : ℚ),
      0.9 ≤ mult → mult ≤ 1.2 →
      kpis.lookup "monthly_revenue" = some (KPIValue.num mv) →
      kpis.lookup "lead_conversion_rate" = some (KPIValue.num lc) →
      forecast kpis mult
        = Except.ok { next_30d_revenue := mv * mult, next_30d_leads := pyInt (lc * 2) } := by
  intro kpis mult mv lc h1 h2 hmv hlc
  unfold forecast
  rw [hmv, hlc]
  rfl

/-- A concrete KPI mapping with monthly_revenue 200 and
lead_conversion_rate 5. -/
def c8Kpis : List (String × KPIValue) :=
  kpiDict { kpiDefault with monthly_revenue := 200, lead_conversion_rate := 5 }

/-- Witness for C8: multiplier 1 gives revenue 200 and 10 leads. -/
theorem C8_forecast_witness :
    forecast c8Kpis 1 = Except.ok { next_30d_revenue := 200, next_30d_leads := 10 } := by
  have h := C8_forecast c8Kpis 1 200 5 (by norm_num) (by norm_num) (by decide) (by decide)
  rw [h]
  have h10 : pyInt ((5 : ℚ) * 2) = 10 := by
    rw [pyInt, if_pos (by norm_num)]
    rw [show ((5 : ℚ) * 2) = ((10 : ℕ) : ℚ) by norm_num, Int.floor_natCast]
    norm_num
  rw [h10, show (200 : ℚ) * 1 = 200 by norm_num]

/-- A concrete random source for a single lead. -/
def sampleLeadRand : LeadRand :=
  { nameDraw := fun _ => "Acme", sourceDraw := fun _ => 0,
    dateDraw := fun _ => "2025-09-20", statusDraw := fun _ => 2 }

/-- C9: every generated lead draws its source from the fixed pool
{Web, Referral, Event, Cold Call} and its status from
{New, Contacted, Qualified, Disqualified}, whatever the random
source. -/
theorem C9_lead_enums :
    ∀ (n : Nat) (g : LeadRand) (l : Lead), l ∈ generate_leads n g →
      l.source ∈ ["Web", "Referral", "Event", "Cold Call"] ∧
      l.status ∈ ["New", "Contacted", "Qualified", "Disqualified"] := by
  intro n g l hl
  simp only [generate_leads, List.mem_map] at hl
  obtain ⟨i, -, rfl⟩ := hl
  exact ⟨chooseFrom_mem (by simp) _, chooseFrom_mem (by simp) _⟩

/-- Witness for C9: the lead generated at index 0 with concrete draws
has its source and status in the fixed pools. -/
theorem C9_lead_enums_witness :
    ((generate_leads 1 sampleLeadRand).headD sampleLead).source
        ∈ ["Web", "Referral", "Event", "Cold Call"] ∧
    ((generate_leads 1 sampleLeadRand).headD sampleLead).status
        ∈ ["New", "Contacted", "Qualified", "Disqualified"] :=
  C9_lead_enums 1 sampleLeadRand _ (by decide)

/-- One lead, one open opportunity, one Closed Won deal. -/
def c10Data : SalesData :=
  { leads := [sampleLead], opportunities := [sampleOpp "Demo" 1000],
    closed_deals := [sampleDeal "Closed Won" 2000] }

/-- C10: a successfully returned KPI mapping has exactly the fixed 15
keys in the dict-literal order, and its stage_conversion sub-mapping
has exactly the keys Prospecting, Qualification, Demo with values in
[0.2, 0.8] whenever the per-stage draws are in that range. -/
theorem C10_kpi_keys :
    ∀ (data : SalesData) (r : RandDraws) (k : KPIs), calculate data r = Except.ok k →
      (∀ s : String, 0.2 ≤ r.stageConvDraw s ∧ r.stageConvDraw s ≤ 0.8) →
      (kpiDict k).map Prod.fst
        = ["monthly_revenue", "average_deal_size", "win_rate", "sales_cycle_days",
           "quota_attainment", "pipeline_value", "pipeline_velocity", "forecast_accuracy",
           "stage_conversion", "coverage_ratio", "lead_conversion_rate", "cost_per_lead",
           "mql_to_sql", "website_conversion", "cac"] ∧
      (kpiDict k).lookup "stage_conversion" = some (KPIValue.table k.stage_conversion) ∧
      k.stage_conversion.map Prod.fst = ["Prospecting", "Qualification", "Demo"] ∧
      ∀ p ∈ k.stage_conversion, 0.2 ≤ p.2 ∧ p.2 ≤ 0.8 := by
  intro data r k h hr
  have hsc := (calculate_spec h).2.2.2.2.2.2.2.2.2.2
  refine ⟨rfl, rfl, ?_, ?_⟩
  · rw [hsc]
    rfl
  · intro p hp
    rw [hsc] at hp
    rcases List.mem_map.mp hp with ⟨s, -, rfl⟩
    exact hr s

/-- Witness for C10: a concrete run returns the 15 keys and the three
stage-conversion keys. -/
theorem C10_kpi_keys_witness :
    (kpiDict (calcOk c10Data sampleRnd)).map Prod.fst
        = ["monthly_revenue", "average_deal_size", "win_rate", "sales_cycle_days",
           "quota_attainment", "pipeline_value", "pipeline_velocity", "forecast_accuracy",
           "stage_conversion", "coverage_ratio", "lead_conversion_rate", "cost_per_lead",
           "mql_to_sql", "website_conversion", "cac"] ∧
    (calcOk c10Data sampleRnd).stage_conversion.map Prod.fst
        = ["Prospecting", "Qualification", "Demo"] := by
  have h := C10_kpi_keys c10Data sampleRnd (calcOk c10Data sampleRnd) rfl
    (fun s => by norm_num [sampleRnd])
  exact ⟨h.1, h.2.2.1⟩
